import Mathlib

/-!
Verification development for the procurement-query extraction service.

Shallow embedding of:
- `src/app/models/domain.py` — the pydantic data model (all records declared with
  `model_config = ConfigDict(extra='forbid')`), embedded as Lean structures plus
  executable validators over a JSON value type;
- `src/app/services/extraction.py` — the retry loop of `ExtractionService.extract`
  and the canonicalizers `_extraction_to_dict` / `_convert_filter_group`;
- `src/app/models/prompt_builder.py` — the date computations of
  `build_system_prompt` and the literal `build_user_prompt`.

Modelling conventions:
- machine floats (temperatures, amounts) are embedded as rationals;
- Python exceptions are embedded as values; `str(e)` of a pydantic
  `ValidationError` is rendered in the pydantic v2 format
  `"<n> validation error for <Model>\n<dotted loc>\n  <message> [type=<tag>]"`,
  which is the format the source itself relies on for its substring tests
  (`"extra_forbidden" in error_msg`, `"Extra inputs are not permitted" in error_msg`);
  the `input_value=...` tail that pydantic appends is not modelled (it can only
  add further text to the message);
- pydantic collects every field error while this model reports the first error,
  checking undeclared (extra) keys of a record before its declared fields;
- `Json.obj` association lists are the output of `json.loads`, hence duplicate-free.
-/

/-- JSON values, the shape of inference-provider output fed to validation. -/
inductive Json where
  | null : Json
  | bool : Bool → Json
  | num : ℚ → Json
  | str : String → Json
  | arr : List Json → Json
  | obj : List (String × Json) → Json

/-- The keys of a JSON object given as an association list. -/
def keyList (kvs : List (String × Json)) : List String :=
  kvs.map Prod.fst

/-- First-match lookup in a JSON object (duplicate-free by convention). -/
def alistLookup (kvs : List (String × Json)) (k : String) : Option Json :=
  match kvs with
  | [] => none
  | (k2, v) :: rest => if k2 = k then some v else alistLookup rest k

/-- A single pydantic v2 validation error, tagged with its location path. -/
inductive PyErr where
  | extraForbidden : List String → PyErr
  | missing : List String → PyErr
  | typeErr : List String → String → PyErr
  | literalErr : List String → PyErr
deriving DecidableEq, Repr

/-- Push a parent key onto an error location (pydantic loc nesting). -/
def prefixLoc (k : String) : PyErr → PyErr
  | .extraForbidden l => .extraForbidden (k :: l)
  | .missing l => .missing (k :: l)
  | .typeErr l t => .typeErr (k :: l) t
  | .literalErr l => .literalErr (k :: l)

/-- The location path of an error. -/
def errLoc : PyErr → List String
  | .extraForbidden l => l
  | .missing l => l
  | .typeErr l _ => l
  | .literalErr l => l

/-- The per-error message line, in the pydantic v2 rendering. -/
def errTemplate : PyErr → String
  | .extraForbidden _ => "Extra inputs are not permitted [type=extra_forbidden]"
  | .missing _ => "Field required [type=missing]"
  | .typeErr _ t => "Input should be a valid " ++ t ++ " [type=" ++ t ++ "_type]"
  | .literalErr _ => "Input should be one of the permitted literals [type=literal_error]"

/-- `str(e)` of the pydantic `ValidationError` wrapping one error. -/
def errStr (e : PyErr) : String :=
  "1 validation error for ProcurementQueryExtraction\n"
    ++ String.intercalate "." (errLoc e)
    ++ "\n  " ++ errTemplate e

/-- `DateFilter` of `src/app/models/domain.py` (operator is validated against
    the literal set by `validateDateFilter`). -/
structure DateFilter where
  operator : String
  value : Option String
  start_date : Option String
  end_date : Option String
  recent_days : Option ℤ
deriving DecidableEq, Repr

/-- `AmountFilter` of `src/app/models/domain.py`. -/
structure AmountFilter where
  operator : String
  value : Option ℚ
  min_value : Option ℚ
  max_value : Option ℚ
deriving DecidableEq, Repr

/-- `TextFilter` of `src/app/models/domain.py`. -/
structure TextFilter where
  operator : String
  value : Option String
  values : Option (List String)
deriving DecidableEq, Repr

/-- `CodeLevel` of `src/app/models/domain.py`. -/
structure CodeLevel where
  code : String
  description : String
deriving DecidableEq, Repr

/-- `PSCInfo` of `src/app/models/domain.py`. -/
structure PSCInfo where
  psc_code : Option (List String)
  description : Option String
  level1 : Option CodeLevel
  level2 : Option CodeLevel
deriving DecidableEq, Repr

/-- `NAICSInfo` of `src/app/models/domain.py`. -/
structure NAICSInfo where
  naics_code : Option (List String)
  description : Option String
  level1 : Option CodeLevel
  level2 : Option CodeLevel
deriving DecidableEq, Repr

/-- `SetAsideFilter` of `src/app/models/domain.py`. -/
structure SetAsideFilter where
  description : Option String
  code : Option (List String)
deriving DecidableEq, Repr

/-- `FilterGroup` of `src/app/models/domain.py`: nine independently optional slots. -/
structure FilterGroup where
  StartDate : Option DateFilter
  EndDate : Option DateFilter
  funded_amount : Option AmountFilter
  total_amount : Option AmountFilter
  vendor : Option TextFilter
  subdoctype : Option TextFilter
  product_service_code : Option PSCInfo
  industry_code : Option NAICSInfo
  set_aside : Option SetAsideFilter
deriving DecidableEq, Repr

/-- `ProcurementQueryExtraction` of `src/app/models/domain.py` (the root record). -/
structure ProcurementQueryExtraction where
  filter_groups : List FilterGroup
  group_operator_between_groups : Option String
  original_query : String
deriving DecidableEq, Repr

/-- Declared key set of `DateFilter`. -/
def dateFilterKeys : List String :=
  ["operator", "value", "start_date", "end_date", "recent_days"]

/-- Declared key set of `AmountFilter`. -/
def amountFilterKeys : List String :=
  ["operator", "value", "min_value", "max_value"]

/-- Declared key set of `TextFilter`. -/
def textFilterKeys : List String :=
  ["operator", "value", "values"]

/-- Declared key set of `CodeLevel`. -/
def codeLevelKeys : List String :=
  ["code", "description"]

/-- Declared key set of `PSCInfo`. -/
def pscInfoKeys : List String :=
  ["psc_code", "description", "level1", "level2"]

/-- Declared key set of `NAICSInfo`. -/
def naicsInfoKeys : List String :=
  ["naics_code", "description", "level1", "level2"]

/-- Declared key set of `SetAsideFilter`. -/
def setAsideKeys : List String :=
  ["description", "code"]

/-- Declared key set of `FilterGroup`. -/
def filterGroupKeys : List String :=
  ["StartDate", "EndDate", "funded_amount", "total_amount", "vendor", "subdoctype",
   "product_service_code", "industry_code", "set_aside"]

/-- Declared key set of `ProcurementQueryExtraction`. -/
def extractionKeys : List String :=
  ["filter_groups", "group_operator_between_groups", "original_query"]

/-- `extra='forbid'`: reject the first key of the object that is not declared. -/
def checkClosed (declared : List String) : List (String × Json) → Except PyErr Unit
  | [] => .ok ()
  | (k, _) :: rest =>
    if k ∈ declared then checkClosed declared rest else .error (.extraForbidden [k])

/-- An `Optional[str] = None` pydantic field. -/
def optStrField (kvs : List (String × Json)) (k : String) : Except PyErr (Option String) :=
  match alistLookup kvs k with
  | none => .ok none
  | some .null => .ok none
  | some (.str s) => .ok (some s)
  | some _ => .error (.typeErr [k] "string")

/-- An `Optional[float] = None` pydantic field. -/
def optNumField (kvs : List (String × Json)) (k : String) : Except PyErr (Option ℚ) :=
  match alistLookup kvs k with
  | none => .ok none
  | some .null => .ok none
  | some (.num q) => .ok (some q)
  | some _ => .error (.typeErr [k] "number")

/-- An `Optional[int] = None` pydantic field (accepts an integral JSON number). -/
def optIntField (kvs : List (String × Json)) (k : String) : Except PyErr (Option ℤ) :=
  match alistLookup kvs k with
  | none => .ok none
  | some .null => .ok none
  | some (.num q) => if q.den = 1 then .ok (some q.num) else .error (.typeErr [k] "integer")
  | some _ => .error (.typeErr [k] "integer")

/-- A required `str` pydantic field. -/
def reqStrField (kvs : List (String × Json)) (k : String) : Except PyErr String :=
  match alistLookup kvs k with
  | none => .error (.missing [k])
  | some (.str s) => .ok s
  | some _ => .error (.typeErr [k] "string")

/-- A required `Literal[...]` pydantic field over string alternatives. -/
def literalField (kvs : List (String × Json)) (k : String) (allowed : List String) :
    Except PyErr String :=
  match alistLookup kvs k with
  | none => .error (.missing [k])
  | some (.str s) => if s ∈ allowed then .ok s else .error (.literalErr [k])
  | some _ => .error (.typeErr [k] "string")

/-- An `Optional[Literal[...]] = None` pydantic field over string alternatives. -/
def optLiteralField (kvs : List (String × Json)) (k : String) (allowed : List String) :
    Except PyErr (Option String) :=
  match alistLookup kvs k with
  | none => .ok none
  | some .null => .ok none
  | some (.str s) => if s ∈ allowed then .ok (some s) else .error (.literalErr [k])
  | some _ => .error (.typeErr [k] "string")

/-- Elements of a `List[str]` field, locating an error at its index. -/
def strItems : ℕ → List Json → Except PyErr (List String)
  | _, [] => .ok []
  | i, .str s :: rest => (strItems (i + 1) rest).map (fun l => s :: l)
  | i, _ :: _ => .error (.typeErr [toString i] "string")

/-- An `Optional[List[str]] = None` pydantic field. -/
def optStrListField (kvs : List (String × Json)) (k : String) :
    Except PyErr (Option (List String)) :=
  match alistLookup kvs k with
  | none => .ok none
  | some .null => .ok none
  | some (.arr items) => ((strItems 0 items).map some).mapError (prefixLoc k)
  | some _ => .error (.typeErr [k] "list")

/-- An optional nested sub-model field, prefixing nested error locations. -/
def optSubField (valf : Json → Except PyErr α) (kvs : List (String × Json)) (k : String) :
    Except PyErr (Option α) :=
  match alistLookup kvs k with
  | none => .ok none
  | some .null => .ok none
  | some v => ((valf v).map some).mapError (prefixLoc k)

/-- Closed-record validation of `DateFilter` (`extra='forbid'`). -/
def validateDateFilter (j : Json) : Except PyErr DateFilter :=
  match j with
  | .obj kvs =>
    match checkClosed dateFilterKeys kvs with
    | .error e => .error e
    | .ok _ => do
      let op ← literalField kvs "operator" ["=", "<", ">", "<=", ">=", "BETWEEN"]
      let v ← optStrField kvs "value"
      let sd ← optStrField kvs "start_date"
      let ed ← optStrField kvs "end_date"
      let rd ← optIntField kvs "recent_days"
      pure { operator := op, value := v, start_date := sd, end_date := ed, recent_days := rd }
  | _ => .error (.typeErr [] "dictionary")

/-- Closed-record validation of `AmountFilter` (`extra='forbid'`). -/
def validateAmountFilter (j : Json) : Except PyErr AmountFilter :=
  match j with
  | .obj kvs =>
    match checkClosed amountFilterKeys kvs with
    | .error e => .error e
    | .ok _ => do
      let op ← literalField kvs "operator" ["=", ">", "<", ">=", "<=", "BETWEEN"]
      let v ← optNumField kvs "value"
      let mn ← optNumField kvs "min_value"
      let mx ← optNumField kvs "max_value"
      pure { operator := op, value := v, min_value := mn, max_value := mx }
  | _ => .error (.typeErr [] "dictionary")

/-- Closed-record validation of `TextFilter` (`extra='forbid'`). -/
def validateTextFilter (j : Json) : Except PyErr TextFilter :=
  match j with
  | .obj kvs =>
    match checkClosed textFilterKeys kvs with
    | .error e => .error e
    | .ok _ => do
      let op ← literalField kvs "operator" ["=", "LIKE", "IN"]
      let v ← optStrField kvs "value"
      let vs ← optStrListField kvs "values"
      pure { operator := op, value := v, values := vs }
  | _ => .error (.typeErr [] "dictionary")

/-- Closed-record validation of `CodeLevel` (`extra='forbid'`). -/
def validateCodeLevel (j : Json) : Except PyErr CodeLevel :=
  match j with
  | .obj kvs =>
    match checkClosed codeLevelKeys kvs with
    | .error e => .error e
    | .ok _ => do
      let c ← reqStrField kvs "code"
      let d ← reqStrField kvs "description"
      pure { code := c, description := d }
  | _ => .error (.typeErr [] "dictionary")

/-- Closed-record validation of `PSCInfo` (`extra='forbid'`). -/
def validatePSCInfo (j : Json) : Except PyErr PSCInfo :=
  match j with
  | .obj kvs =>
    match checkClosed pscInfoKeys kvs with
    | .error e => .error e
    | .ok _ => do
      let c ← optStrListField kvs "psc_code"
      let d ← optStrField kvs "description"
      let l1 ← optSubField validateCodeLevel kvs "level1"
      let l2 ← optSubField validateCodeLevel kvs "level2"
      pure { psc_code := c, description := d, level1 := l1, level2 := l2 }
  | _ => .error (.typeErr [] "dictionary")

/-- Closed-record validation of `NAICSInfo` (`extra='forbid'`). -/
def validateNAICSInfo (j : Json) : Except PyErr NAICSInfo :=
  match j with
  | .obj kvs =>
    match checkClosed naicsInfoKeys kvs with
    | .error e => .error e
    | .ok _ => do
      let c ← optStrListField kvs "naics_code"
      let d ← optStrField kvs "description"
      let l1 ← optSubField validateCodeLevel kvs "level1"
      let l2 ← optSubField validateCodeLevel kvs "level2"
      pure { naics_code := c, description := d, level1 := l1, level2 := l2 }
  | _ => .error (.typeErr [] "dictionary")

/-- Closed-record validation of `SetAsideFilter` (`extra='forbid'`). -/
def validateSetAsideFilter (j : Json) : Except PyErr SetAsideFilter :=
  match j with
  | .obj kvs =>
    match checkClosed setAsideKeys kvs with
    | .error e => .error e
    | .ok _ => do
      let d ← optStrField kvs "description"
      let c ← optStrListField kvs "code"
      pure { description := d, code := c }
  | _ => .error (.typeErr [] "dictionary")

/-- Closed-record validation of `FilterGroup` (`extra='forbid'`). -/
def validateFilterGroup (j : Json) : Except PyErr FilterGroup :=
  match j with
  | .obj kvs =>
    match checkClosed filterGroupKeys kvs with
    | .error e => .error e
    | .ok _ => do
      let sdt ← optSubField validateDateFilter kvs "StartDate"
      let edt ← optSubField validateDateFilter kvs "EndDate"
      let fa ← optSubField validateAmountFilter kvs "funded_amount"
      let ta ← optSubField validateAmountFilter kvs "total_amount"
      let vn ← optSubField validateTextFilter kvs "vendor"
      let sdc ← optSubField validateTextFilter kvs "subdoctype"
      let psc ← optSubField validatePSCInfo kvs "product_service_code"
      let naics ← optSubField validateNAICSInfo kvs "industry_code"
      let sa ← optSubField validateSetAsideFilter kvs "set_aside"
      pure { StartDate := sdt, EndDate := edt, funded_amount := fa, total_amount := ta,
             vendor := vn, subdoctype := sdc, product_service_code := psc,
             industry_code := naics, set_aside := sa }
  | _ => .error (.typeErr [] "dictionary")

/-- Validate a list of filter groups, locating errors at their index. -/
def validateGroups : ℕ → List Json → Except PyErr (List FilterGroup)
  | _, [] => .ok []
  | i, g :: rest => do
    let fg ← (validateFilterGroup g).mapError (prefixLoc (toString i))
    let tl ← validateGroups (i + 1) rest
    pure (fg :: tl)

/-- Closed-record validation of the root `ProcurementQueryExtraction`
    (`ProcurementQueryExtraction.model_validate_json` after `json.loads`). -/
def validateExtraction (j : Json) : Except PyErr ProcurementQueryExtraction :=
  match j with
  | .obj kvs =>
    match checkClosed extractionKeys kvs with
    | .error e => .error e
    | .ok _ => do
      let gs ←
        match alistLookup kvs "filter_groups" with
        | none => .error (.missing ["filter_groups"])
        | some (.arr items) => (validateGroups 0 items).mapError (prefixLoc "filter_groups")
        | some _ => .error (.typeErr ["filter_groups"] "list")
      let comb ← optLiteralField kvs "group_operator_between_groups" ["AND", "OR"]
      let q ← reqStrField kvs "original_query"
      pure { filter_groups := gs, group_operator_between_groups := comb, original_query := q }
  | _ => .error (.typeErr [] "dictionary")

/-- Whether an `Except` value is an error. -/
def isErr : Except PyErr α → Bool
  | .error _ => true
  | .ok _ => false

/-!
Canonicalization: `_extraction_to_dict` and `_convert_filter_group` of
`src/app/services/extraction.py`. A Python dict with a fixed key set
(`original_query`, `group_operator_between_groups`, `filter_groups`) is
embedded as the record `ExtractDict`; the per-group sparse dicts are embedded
as association lists in insertion order.
-/

/-- A JSON string or null for an optional string field. -/
def optStrJson : Option String → Json
  | none => .null
  | some s => .str s

/-- A JSON number or null for an optional amount field. -/
def optNumJson : Option ℚ → Json
  | none => .null
  | some q => .num q

/-- A JSON string list or null for an optional list field. -/
def optListJson : Option (List String) → Json
  | none => .null
  | some l => .arr (l.map .str)

/-- `CodeLevel.model_dump()`. -/
def codeLevelDump (c : CodeLevel) : Json :=
  .obj [("code", .str c.code), ("description", .str c.description)]

/-- `level.model_dump() if level else None`. -/
def optCodeLevelJson : Option CodeLevel → Json
  | none => .null
  | some c => codeLevelDump c

/-- The dict built for a populated `StartDate`/`EndDate` slot: the four declared
    sub-fields always, then `recent_days` only when truthy (non-None and non-zero,
    Python `if group.X.recent_days:`). -/
def dateFilterDict (f : DateFilter) : List (String × Json) :=
  [("operator", .str f.operator), ("value", optStrJson f.value),
   ("start_date", optStrJson f.start_date), ("end_date", optStrJson f.end_date)]
    ++ (match f.recent_days with
        | some n => if n = 0 then [] else [("recent_days", .num (n : ℚ))]
        | none => [])

/-- The dict built for a populated amount slot. -/
def amountFilterDict (f : AmountFilter) : List (String × Json) :=
  [("operator", .str f.operator), ("value", optNumJson f.value),
   ("min_value", optNumJson f.min_value), ("max_value", optNumJson f.max_value)]

/-- The dict built for a populated text slot. -/
def textFilterDict (f : TextFilter) : List (String × Json) :=
  [("operator", .str f.operator), ("value", optStrJson f.value),
   ("values", optListJson f.values)]

/-- The dict built for a populated `product_service_code` slot. -/
def pscInfoDict (p : PSCInfo) : List (String × Json) :=
  [("psc_code", optListJson p.psc_code), ("description", optStrJson p.description),
   ("level1", optCodeLevelJson p.level1), ("level2", optCodeLevelJson p.level2)]

/-- The dict built for a populated `industry_code` slot. -/
def naicsInfoDict (n : NAICSInfo) : List (String × Json) :=
  [("naics_code", optListJson n.naics_code), ("description", optStrJson n.description),
   ("level1", optCodeLevelJson n.level1), ("level2", optCodeLevelJson n.level2)]

/-- The dict built for a populated `set_aside` slot. -/
def setAsideDict (s : SetAsideFilter) : List (String × Json) :=
  [("description", optStrJson s.description), ("code", optListJson s.code)]

/-- One `if group.slot: group_dict[name] = payload(group.slot)` step. -/
def slotEntry (name : String) (payload : α → Json) : Option α → List (String × Json)
  | some a => [(name, payload a)]
  | none => []

/-- The name a `slotEntry` step emits, when its slot is populated. -/
def slotName (name : String) : Option α → List String
  | some _ => [name]
  | none => []

/-- `ExtractionService._convert_filter_group`: emit a key for each populated slot,
    in source order (`subdoctype` is emitted before `vendor`). -/
def convertFilterGroup (g : FilterGroup) : List (String × Json) :=
  slotEntry "StartDate" (fun f => .obj (dateFilterDict f)) g.StartDate
    ++ slotEntry "EndDate" (fun f => .obj (dateFilterDict f)) g.EndDate
    ++ slotEntry "funded_amount" (fun f => .obj (amountFilterDict f)) g.funded_amount
    ++ slotEntry "total_amount" (fun f => .obj (amountFilterDict f)) g.total_amount
    ++ slotEntry "subdoctype" (fun f => .obj (textFilterDict f)) g.subdoctype
    ++ slotEntry "vendor" (fun f => .obj (textFilterDict f)) g.vendor
    ++ slotEntry "product_service_code" (fun p => .obj (pscInfoDict p)) g.product_service_code
    ++ slotEntry "industry_code" (fun n => .obj (naicsInfoDict n)) g.industry_code
    ++ slotEntry "set_aside" (fun s => .obj (setAsideDict s)) g.set_aside

/-- The populated-slot names of a group, in the same source order. -/
def populatedSlots (g : FilterGroup) : List String :=
  slotName "StartDate" g.StartDate
    ++ slotName "EndDate" g.EndDate
    ++ slotName "funded_amount" g.funded_amount
    ++ slotName "total_amount" g.total_amount
    ++ slotName "subdoctype" g.subdoctype
    ++ slotName "vendor" g.vendor
    ++ slotName "product_service_code" g.product_service_code
    ++ slotName "industry_code" g.industry_code
    ++ slotName "set_aside" g.set_aside

/-- The fixed-key result dict of `ExtractionService._extraction_to_dict`. -/
structure ExtractDict where
  original_query : String
  group_operator_between_groups : Option String
  filter_groups : List (List (String × Json))

/-- `ExtractionService._extraction_to_dict`. -/
def extractionToDict (e : ProcurementQueryExtraction) : ExtractDict :=
  { original_query := e.original_query
    group_operator_between_groups := e.group_operator_between_groups
    filter_groups := e.filter_groups.map convertFilterGroup }

/-!
String machinery for the substring tests of `ExtractionService.extract`
(lines 118 and 128 of `src/app/services/extraction.py`).
-/

/-- Whether the first list is a prefix of the second. -/
def isPrefixL : List Char → List Char → Bool
  | [], _ => true
  | _ :: _, [] => false
  | a :: ps, b :: hs => a == b && isPrefixL ps hs

/-- Whether `pat` occurs as a contiguous sublist of the haystack. -/
def hasSubL (pat : List Char) : List Char → Bool
  | [] => isPrefixL pat []
  | b :: hs => isPrefixL pat (b :: hs) || hasSubL pat hs

/-- Python `pat in s` on strings. -/
def strContains (s pat : String) : Bool :=
  hasSubL pat.data s.data

/-- Python `str.lower` for an ASCII character. -/
def lowerChar (c : Char) : Char :=
  if 'A' ≤ c ∧ c ≤ 'Z' then Char.ofNat (c.toNat + 32) else c

/-- Python `str.lower` (the messages in play are ASCII). -/
def strLower (s : String) : String :=
  ⟨s.data.map lowerChar⟩

/-!
The retry loop of `ExtractionService.extract` (lines 67-133 of
`src/app/services/extraction.py`). The inference collaborator is a function of
the 0-indexed attempt number and the effective temperature; it either raises a
provider error carrying a message, or returns response text already parsed as
JSON. Temperatures are rationals standing for Python floats; the base
temperature is the value after the `None` default is resolved from settings.
-/

/-- Outcome of one `client.chat.completions.create` call. -/
inductive AttemptOut where
  | providerErr : String → AttemptOut
  | output : Json → AttemptOut

/-- An exception caught by the `except` on line 114: either the provider call
    raised, or pydantic validation of the response raised. -/
inductive PyExc where
  | provider : String → PyExc
  | validation : PyErr → PyExc

/-- `str(e)` for a caught exception. -/
def excStr : PyExc → String
  | .provider m => m
  | .validation e => errStr e

/-- Line 72: `temperature + (attempt * 0.05) if attempt > 0 else temperature`. -/
def retryTemperature (t : ℚ) (a : ℕ) : ℚ :=
  if 0 < a then t + (a : ℚ) * (5 / 100) else t

/-- Line 118: retry only when the message shows an extra-forbidden validation error. -/
def shouldRetry (msg : String) : Bool :=
  strContains msg "extra_forbidden" || strContains msg "Extra inputs are not permitted"

/-- The two failure kinds of `src/app/core/exceptions.py` that `extract` raises,
    or a successful result dict; `attempts` counts loop iterations entered. -/
inductive ExtractResult where
  | success : ExtractDict → ℕ → ExtractResult
  | azureOpenAIError : String → ℕ → ExtractResult
  | extractionError : String → String → ℕ → ExtractResult
  | noResult : ExtractResult

/-- Lines 125-133: classify the last recorded error by substring match and raise.
    `AzureOpenAIError(msg)` stores `"Azure OpenAI Error: " ++ msg`;
    `ExtractionError` stores the fixed message and the error text as detail. -/
def classifyLastError (msg : String) (attempts : ℕ) : ExtractResult :=
  if strContains (strLower msg) "openai" || strContains (strLower msg) "api" then
    .azureOpenAIError msg attempts
  else
    .extractionError "Failed to extract query" msg attempts

/-- After the loop: `if last_error: ... raise`, else Python falls through
    returning `None` (unreachable for `max_retries = 5`). -/
def finalizeExtract : Option String → ℕ → ExtractResult
  | none, _ => .noResult
  | some m, a => classifyLastError m a

/-- One loop body: call the collaborator at the effective temperature, then
    validate the response (lines 73-113). -/
def attemptOnce (collab : ℕ → ℚ → AttemptOut) (t : ℚ) (a : ℕ) :
    Except PyExc ProcurementQueryExtraction :=
  match collab a (retryTemperature t a) with
  | .providerErr m => .error (.provider m)
  | .output j =>
    match validateExtraction j with
    | .error e => .error (.validation e)
    | .ok x => .ok x

/-- The `for attempt in range(max_retries)` loop with `continue`/`break`
    (lines 70-122): `fuel` is the remaining iteration count, `a` the current
    0-indexed attempt, `last` the last recorded error message. -/
def extractGo (collab : ℕ → ℚ → AttemptOut) (t : ℚ) : ℕ → ℕ → Option String → ExtractResult
  | 0, a, last => finalizeExtract last a
  | fuel + 1, a, _ =>
    match attemptOnce collab t a with
    | .ok x => .success (extractionToDict x) (a + 1)
    | .error e =>
      let msg := excStr e
      if shouldRetry msg then extractGo collab t fuel (a + 1) (some msg)
      else finalizeExtract (some msg) (a + 1)

/-- `ExtractionService.extract` with `max_retries = 5`. -/
def extract (collab : ℕ → ℚ → AttemptOut) (t : ℚ) : ExtractResult :=
  extractGo collab t 5 0 none

/-!
Date model for `src/app/models/prompt_builder.py`. `date.today()` is the one
ambient read of `build_system_prompt`; it is made explicit as a `World`.
`date - timedelta(days=n)` is embedded through the proleptic Gregorian
day-number conversion (the same calendar as Python `datetime.date`).
-/

/-- A calendar date (Python `datetime.date`). -/
structure Date where
  year : ℤ
  month : ℕ
  day : ℕ
deriving DecidableEq, Repr

/-- Day number of a civil date (proleptic Gregorian, floor division). -/
def daysFromCivil (dt : Date) : ℤ :=
  let y : ℤ := if dt.month ≤ 2 then dt.year - 1 else dt.year
  let era : ℤ := Int.fdiv y 400
  let yoe : ℤ := y - era * 400
  let doy : ℤ :=
    Int.fdiv (153 * (if 2 < dt.month then (dt.month : ℤ) - 3 else (dt.month : ℤ) + 9) + 2) 5
      + (dt.day : ℤ) - 1
  let doe : ℤ := yoe * 365 + Int.fdiv yoe 4 - Int.fdiv yoe 100 + doy
  era * 146097 + doe - 719468

/-- Civil date of a day number (inverse of `daysFromCivil`). -/
def civilFromDays (z0 : ℤ) : Date :=
  let z : ℤ := z0 + 719468
  let era : ℤ := Int.fdiv z 146097
  let doe : ℤ := z - era * 146097
  let yoe : ℤ :=
    Int.fdiv (doe - Int.fdiv doe 1460 + Int.fdiv doe 36524 - Int.fdiv doe 146097) 365
  let y : ℤ := yoe + era * 400
  let doy : ℤ := doe - (365 * yoe + Int.fdiv yoe 4 - Int.fdiv yoe 100)
  let mp : ℤ := Int.fdiv (5 * doy + 2) 153
  let d : ℤ := doy - Int.fdiv (153 * mp + 2) 5 + 1
  let m : ℤ := if mp < 10 then mp + 3 else mp - 9
  { year := if m ≤ 2 then y + 1 else y, month := m.toNat, day := d.toNat }

/-- Python `today - timedelta(days=n)`. -/
def pyDateSub (dt : Date) (n : ℤ) : Date :=
  civilFromDays (daysFromCivil dt - n)

/-- Lines 42-47: current federal fiscal year start (`Oct 1` of this or the
    previous calendar year depending on `today.month >= 10`). -/
def currentFYStart (today : Date) : Date :=
  if 10 ≤ today.month then { year := today.year, month := 10, day := 1 }
  else { year := today.year - 1, month := 10, day := 1 }

/-- Lines 42-47: current federal fiscal year end (`Sep 30`). -/
def currentFYEnd (today : Date) : Date :=
  if 10 ≤ today.month then { year := today.year + 1, month := 9, day := 30 }
  else { year := today.year, month := 9, day := 30 }

/-- Line 49: start of the fiscal year two years back. -/
def twoFYAgoStart (today : Date) : Date :=
  if 10 ≤ today.month then { year := today.year - 2, month := 10, day := 1 }
  else { year := today.year - 3, month := 10, day := 1 }

/-- `DEFAULT_RECENT_DAYS` of `src/app/models/prompt_builder.py`. -/
def DEFAULT_RECENT_DAYS : ℕ := 90

/-- The ambient state `build_system_prompt` reads: the wall-clock date
    returned by `date.today()`. -/
structure World where
  today : Date
deriving DecidableEq, Repr

/-- The computed content interpolated into the system prompt. The surrounding
    instructional text of `build_system_prompt` is a fixed literal, and the
    `strftime("%Y-%m-%d")` rendering of a date is injective, so the returned
    string is determined by (and distinguishes) exactly these values; the
    prompt is modelled as this record. -/
structure SystemPromptContent where
  today_str : Date
  five_years_ago : Date
  two_years_ago : Date
  one_year_ago : Date
  recent_date : Date
  current_fy_start : Date
  current_fy_end : Date
  two_fy_ago_start : Date
  recent_days : ℕ
deriving DecidableEq, Repr

/-- `build_system_prompt(recent_days)` of `src/app/models/prompt_builder.py`,
    with its internal `date.today()` read made explicit through `w`. -/
def build_system_prompt (w : World) (recent_days : Option ℕ) : SystemPromptContent :=
  let rd := recent_days.getD DEFAULT_RECENT_DAYS
  let today := w.today
  { today_str := today
    five_years_ago := pyDateSub today (5 * 365)
    two_years_ago := pyDateSub today (2 * 365)
    one_year_ago := pyDateSub today 365
    recent_date := pyDateSub today (rd : ℤ)
    current_fy_start := currentFYStart today
    current_fy_end := currentFYEnd today
    two_fy_ago_start := twoFYAgoStart today
    recent_days := rd }

/-- `build_user_prompt(query)` of `src/app/models/prompt_builder.py`, verbatim. -/
def build_user_prompt (query : String) : String :=
  "Extract structured query filters from the following natural language question about U.S. federal procurement contracts:\n\nQuery: \""
    ++ query
    ++ "\"\n\nProvide the structured extraction following all the rules specified in the system prompt."

/-!
Concrete inputs used by the witnesses and counterexamples below.
-/

/-- A `FilterGroup` with no populated slot (valid: all slots are optional). -/
def emptyFilterGroup : FilterGroup :=
  { StartDate := none, EndDate := none, funded_amount := none, total_amount := none,
    vendor := none, subdoctype := none, product_service_code := none,
    industry_code := none, set_aside := none }

/-- A single-group extraction payload carrying a non-null group combinator. -/
def jSingleGroupAnd : Json :=
  .obj [("filter_groups", .arr [.obj []]),
        ("group_operator_between_groups", .str "AND"),
        ("original_query", .str "recent IT contracts")]

/-- The record `jSingleGroupAnd` validates to. -/
def extSingleGroupAnd : ProcurementQueryExtraction :=
  { filter_groups := [emptyFilterGroup],
    group_operator_between_groups := some "AND",
    original_query := "recent IT contracts" }

/-- A two-group extraction payload with no group combinator. -/
def jTwoGroupsNull : Json :=
  .obj [("filter_groups", .arr [.obj [], .obj []]),
        ("original_query", .str "awards or solicitations")]

/-- The record `jTwoGroupsNull` validates to. -/
def extTwoGroupsNull : ProcurementQueryExtraction :=
  { filter_groups := [emptyFilterGroup, emptyFilterGroup],
    group_operator_between_groups := none,
    original_query := "awards or solicitations" }

/-- A date filter payload with `operator = BETWEEN`, a single value and no bounds. -/
def jDateBetweenValueOnly : Json :=
  .obj [("operator", .str "BETWEEN"), ("value", .str "2024-01-01")]

/-- The record `jDateBetweenValueOnly` validates to. -/
def dfBetweenValueOnly : DateFilter :=
  { operator := "BETWEEN", value := some "2024-01-01", start_date := none,
    end_date := none, recent_days := none }

/-- A date filter payload with `operator = "="` and only the BETWEEN bounds. -/
def jDateEqBounds : Json :=
  .obj [("operator", .str "="), ("start_date", .str "2024-01-01"),
        ("end_date", .str "2024-12-31")]

/-- The record `jDateEqBounds` validates to. -/
def dfEqBounds : DateFilter :=
  { operator := "=", value := none, start_date := some "2024-01-01",
    end_date := some "2024-12-31", recent_days := none }

/-- An amount filter payload with `operator = BETWEEN`, a single value and no bounds. -/
def jAmountBetweenValueOnly : Json :=
  .obj [("operator", .str "BETWEEN"), ("value", .num 500000)]

/-- The record `jAmountBetweenValueOnly` validates to. -/
def afBetweenValueOnly : AmountFilter :=
  { operator := "BETWEEN", value := some 500000, min_value := none, max_value := none }

/-- An amount filter payload with `operator = "="` and only the BETWEEN bounds. -/
def jAmountEqBounds : Json :=
  .obj [("operator", .str "="), ("min_value", .num 1000), ("max_value", .num 2000)]

/-- The record `jAmountEqBounds` validates to. -/
def afEqBounds : AmountFilter :=
  { operator := "=", value := none, min_value := some 1000, max_value := some 2000 }

/-- A response whose filter group carries the undeclared key `api_version`:
    a closedness violation whose pydantic error text contains `api` inside the
    location path `filter_groups.0.api_version`. -/
def jExtraApiVersion : Json :=
  .obj [("filter_groups", .arr [.obj [("api_version", .str "2024-02-01")]]),
        ("original_query", .str "recent contracts")]

/-- A collaborator that returns the `api_version`-violating shape on every attempt. -/
def c2Collab : ℕ → ℚ → AttemptOut :=
  fun _ _ => .output jExtraApiVersion

/-- The validation-error text every attempt against `c2Collab` records. -/
def c2Msg : String :=
  errStr (.extraForbidden ["filter_groups", "0", "api_version"])

/-- A collaborator whose first call raises a transport error; the message
    `"Connection error."` is the fixed text of `openai.APIConnectionError`. -/
def c3Collab : ℕ → ℚ → AttemptOut :=
  fun _ _ => .providerErr "Connection error."

/-- A response with a mis-nested (undeclared) key inside the filter group. -/
def jExtraMisnested : Json :=
  .obj [("filter_groups", .arr [.obj [("zz_extra", .null)]]),
        ("original_query", .str "contracts")]

/-- A minimal valid response. -/
def jValidMinimal : Json :=
  .obj [("filter_groups", .arr [.obj []]), ("original_query", .str "contracts")]

/-- The record `jValidMinimal` validates to. -/
def extValidMinimal : ProcurementQueryExtraction :=
  { filter_groups := [emptyFilterGroup],
    group_operator_between_groups := none,
    original_query := "contracts" }

/-- A collaborator returning the mis-nested shape on attempts 0 and 1 and the
    valid shape on attempt 2. -/
def c4Collab : ℕ → ℚ → AttemptOut :=
  fun a _ => if a < 2 then .output jExtraMisnested else .output jValidMinimal

/-- A date filter with `recent_days = 0`, used to witness the truthiness test. -/
def dfRecentZero : DateFilter :=
  { operator := "=", value := some "2024-01-01", start_date := none,
    end_date := none, recent_days := some 0 }

/-- A group whose only populated slot is `StartDate := dfRecentZero`. -/
def groupRecentZero : FilterGroup :=
  { emptyFilterGroup with StartDate := some dfRecentZero }

/-!
Helper lemmas.
-/

/-- If the object carries any key outside the declared set, the closedness
    check reports an extra-forbidden error. -/
theorem checkClosed_extra (declared : List String) :
    ∀ (kvs : List (String × Json)) (k : String),
      k ∈ keyList kvs → k ∉ declared →
      ∃ k2, checkClosed declared kvs = .error (.extraForbidden [k2]) := by
  intro kvs
  induction kvs with
  | nil =>
    intro k h _
    simp [keyList] at h
  | cons kv rest ih =>
    obtain ⟨k1, v⟩ := kv
    intro k hm hk
    simp only [keyList, List.map_cons, List.mem_cons] at hm
    by_cases hc : k1 ∈ declared
    · rcases hm with h1 | h2
      · exact absurd hc (by rwa [h1] at hk)
      · obtain ⟨k2, h3⟩ := ih k (by simpa [keyList] using h2) hk
        exact ⟨k2, by simp [checkClosed, hc, h3]⟩
    · exact ⟨k1, by simp [checkClosed, hc]⟩

theorem validateExtraction_extraKey (kvs : List (String × Json)) (k : String)
    (hm : k ∈ keyList kvs) (hk : k ∉ extractionKeys) :
    isErr (validateExtraction (Json.obj kvs)) = true := by
  obtain ⟨k2, hc⟩ := checkClosed_extra extractionKeys kvs k hm hk
  simp [validateExtraction, hc, isErr]

theorem validateFilterGroup_extraKey (kvs : List (String × Json)) (k : String)
    (hm : k ∈ keyList kvs) (hk : k ∉ filterGroupKeys) :
    isErr (validateFilterGroup (Json.obj kvs)) = true := by
  obtain ⟨k2, hc⟩ := checkClosed_extra filterGroupKeys kvs k hm hk
  simp [validateFilterGroup, hc, isErr]

theorem validateDateFilter_extraKey (kvs : List (String × Json)) (k : String)
    (hm : k ∈ keyList kvs) (hk : k ∉ dateFilterKeys) :
    isErr (validateDateFilter (Json.obj kvs)) = true := by
  obtain ⟨k2, hc⟩ := checkClosed_extra dateFilterKeys kvs k hm hk
  simp [validateDateFilter, hc, isErr]

theorem validateAmountFilter_extraKey (kvs : List (String × Json)) (k : String)
    (hm : k ∈ keyList kvs) (hk : k ∉ amountFilterKeys) :
    isErr (validateAmountFilter (Json.obj kvs)) = true := by
  obtain ⟨k2, hc⟩ := checkClosed_extra amountFilterKeys kvs k hm hk
  simp [validateAmountFilter, hc, isErr]

theorem validateTextFilter_extraKey (kvs : List (String × Json)) (k : String)
    (hm : k ∈ keyList kvs) (hk : k ∉ textFilterKeys) :
    isErr (validateTextFilter (Json.obj kvs)) = true := by
  obtain ⟨k2, hc⟩ := checkClosed_extra textFilterKeys kvs k hm hk
  simp [validateTextFilter, hc, isErr]

theorem validateCodeLevel_extraKey (kvs : List (String × Json)) (k : String)
    (hm : k ∈ keyList kvs) (hk : k ∉ codeLevelKeys) :
    isErr (validateCodeLevel (Json.obj kvs)) = true := by
  obtain ⟨k2, hc⟩ := checkClosed_extra codeLevelKeys kvs k hm hk
  simp [validateCodeLevel, hc, isErr]

theorem validatePSCInfo_extraKey (kvs : List (String × Json)) (k : String)
    (hm : k ∈ keyList kvs) (hk : k ∉ pscInfoKeys) :
    isErr (validatePSCInfo (Json.obj kvs)) = true := by
  obtain ⟨k2, hc⟩ := checkClosed_extra pscInfoKeys kvs k hm hk
  simp [validatePSCInfo, hc, isErr]

theorem validateNAICSInfo_extraKey (kvs : List (String × Json)) (k : String)
    (hm : k ∈ keyList kvs) (hk : k ∉ naicsInfoKeys) :
    isErr (validateNAICSInfo (Json.obj kvs)) = true := by
  obtain ⟨k2, hc⟩ := checkClosed_extra naicsInfoKeys kvs k hm hk
  simp [validateNAICSInfo, hc, isErr]

theorem validateSetAsideFilter_extraKey (kvs : List (String × Json)) (k : String)
    (hm : k ∈ keyList kvs) (hk : k ∉ setAsideKeys) :
    isErr (validateSetAsideFilter (Json.obj kvs)) = true := by
  obtain ⟨k2, hc⟩ := checkClosed_extra setAsideKeys kvs k hm hk
  simp [validateSetAsideFilter, hc, isErr]

/-- An undeclared key inside a nested filter-group object fails the whole
    root validation, through the recursive walk. -/
theorem validateExtraction_nestedExtraKey (kvs : List (String × Json)) (k q : String)
    (hm : k ∈ keyList kvs) (hk : k ∉ filterGroupKeys) :
    isErr (validateExtraction (Json.obj
      [("filter_groups", Json.arr [Json.obj kvs]),
       ("original_query", Json.str q)])) = true := by
  obtain ⟨k2, hc⟩ := checkClosed_extra filterGroupKeys kvs k hm hk
  simp +decide [validateExtraction, checkClosed, alistLookup, validateGroups,
    validateFilterGroup, hc, isErr, Except.mapError, bind, Except.bind]

/-- C1: closed-record validation. For every JSON object presented as any of the
    record shapes of `src/app/models/domain.py` — the root extraction, a filter
    group, a date/amount/text filter, a classification payload, a set-aside, a
    code level — the presence of a key outside the declared field set makes
    validation fail; this applies recursively (an undeclared key inside a
    nested group fails the root validation), and in particular one
    classification taxonomy's field appearing inside the other taxonomy's
    payload is rejected. -/
theorem c1_closed_records :
    (∀ (kvs : List (String × Json)) (k : String), k ∈ keyList kvs → k ∉ extractionKeys →
      isErr (validateExtraction (Json.obj kvs)) = true)
  ∧ (∀ (kvs : List (String × Json)) (k : String), k ∈ keyList kvs → k ∉ filterGroupKeys →
      isErr (validateFilterGroup (Json.obj kvs)) = true)
  ∧ (∀ (kvs : List (String × Json)) (k : String), k ∈ keyList kvs → k ∉ dateFilterKeys →
      isErr (validateDateFilter (Json.obj kvs)) = true)
  ∧ (∀ (kvs : List (String × Json)) (k : String), k ∈ keyList kvs → k ∉ amountFilterKeys →
      isErr (validateAmountFilter (Json.obj kvs)) = true)
  ∧ (∀ (kvs : List (String × Json)) (k : String), k ∈ keyList kvs → k ∉ textFilterKeys →
      isErr (validateTextFilter (Json.obj kvs)) = true)
  ∧ (∀ (kvs : List (String × Json)) (k : String), k ∈ keyList kvs → k ∉ codeLevelKeys →
      isErr (validateCodeLevel (Json.obj kvs)) = true)
  ∧ (∀ (kvs : List (String × Json)) (k : String), k ∈ keyList kvs → k ∉ pscInfoKeys →
      isErr (validatePSCInfo (Json.obj kvs)) = true)
  ∧ (∀ (kvs : List (String × Json)) (k : String), k ∈ keyList kvs → k ∉ naicsInfoKeys →
      isErr (validateNAICSInfo (Json.obj kvs)) = true)
  ∧ (∀ (kvs : List (String × Json)) (k : String), k ∈ keyList kvs → k ∉ setAsideKeys →
      isErr (validateSetAsideFilter (Json.obj kvs)) = true)
  ∧ (∀ (kvs : List (String × Json)) (k q : String), k ∈ keyList kvs → k ∉ filterGroupKeys →
      isErr (validateExtraction (Json.obj
        [("filter_groups", Json.arr [Json.obj kvs]),
         ("original_query", Json.str q)])) = true)
  ∧ (∀ kvs : List (String × Json), "naics_code" ∈ keyList kvs →
      isErr (validatePSCInfo (Json.obj kvs)) = true)
  ∧ (∀ kvs : List (String × Json), "psc_code" ∈ keyList kvs →
      isErr (validateNAICSInfo (Json.obj kvs)) = true) := by
  refine ⟨validateExtraction_extraKey, validateFilterGroup_extraKey,
    validateDateFilter_extraKey, validateAmountFilter_extraKey,
    validateTextFilter_extraKey, validateCodeLevel_extraKey,
    validatePSCInfo_extraKey, validateNAICSInfo_extraKey,
    validateSetAsideFilter_extraKey, validateExtraction_nestedExtraKey,
    fun kvs hm => validatePSCInfo_extraKey kvs "naics_code" hm (by decide),
    fun kvs hm => validateNAICSInfo_extraKey kvs "psc_code" hm (by decide)⟩

/-- Witness for C1 at concrete inputs: an undeclared root key `bogus` is
    rejected, and a NAICS payload field inside the PSC payload is rejected. -/
theorem c1_closed_records_witness :
    ("bogus" ∈ keyList [("filter_groups", Json.arr []), ("original_query", Json.str "q"),
        ("bogus", Json.null)]
      ∧ "bogus" ∉ extractionKeys
      ∧ isErr (validateExtraction (Json.obj
          [("filter_groups", Json.arr []), ("original_query", Json.str "q"),
           ("bogus", Json.null)])) = true)
  ∧ ("naics_code" ∈ keyList [("naics_code", Json.arr [Json.str "541511"])]
      ∧ isErr (validatePSCInfo (Json.obj
          [("naics_code", Json.arr [Json.str "541511"])])) = true) :=
  ⟨⟨by decide, by decide,
    c1_closed_records.1 _ "bogus" (by decide) (by decide)⟩,
   ⟨by decide,
    (c1_closed_records.2.2.2.2.2.2.2.2.2.2.1) _ (by decide)⟩⟩

/-- The key a slot step emits is its name exactly when the slot is populated. -/
theorem map_fst_slotEntry {α : Type} (s : String) (p : α → Json) (o : Option α) :
    (slotEntry s p o).map Prod.fst = slotName s o := by
  cases o <;> rfl

/-- C9: canonicalization slot round-trip. The keys of the canonicalized group
    dict are exactly the populated slots of the validated `FilterGroup`, in
    emission order — a key appears for every populated slot and for nothing
    else (no null placeholders at slot level), so reading the populated-slot
    set back from the output reproduces the original set; canonicalization is
    a pure function, hence repeating it yields the same output. -/
theorem c9_canonical_slot_roundtrip (g : FilterGroup) :
    keyList (convertFilterGroup g) = populatedSlots g := by
  simp [convertFilterGroup, populatedSlots, keyList, map_fst_slotEntry]

/-- C10: `recent_days` emission. The `recent_days` key appears in a date-slot
    payload exactly when the validated filter's `recent_days` is non-null and
    non-zero (Python truthiness on line 177/189 of
    `src/app/services/extraction.py`); `recent_days = 0` canonicalizes exactly
    like `recent_days = None`; the four declared sub-fields are always emitted,
    with null standing for unset ones; and the payload of a populated
    `StartDate`/`EndDate` slot is exactly `dateFilterDict`. -/
theorem c10_recent_days_emission (f : DateFilter) :
    (("recent_days" ∈ keyList (dateFilterDict f)) ↔ ∃ n, f.recent_days = some n ∧ n ≠ 0)
  ∧ dateFilterDict { f with recent_days := some 0 }
      = dateFilterDict { f with recent_days := none }
  ∧ alistLookup (dateFilterDict f) "operator" = some (.str f.operator)
  ∧ alistLookup (dateFilterDict f) "value" = some (optStrJson f.value)
  ∧ alistLookup (dateFilterDict f) "start_date" = some (optStrJson f.start_date)
  ∧ alistLookup (dateFilterDict f) "end_date" = some (optStrJson f.end_date)
  ∧ (∀ g : FilterGroup, g.StartDate = some f →
      alistLookup (convertFilterGroup g) "StartDate" = some (.obj (dateFilterDict f)))
  ∧ (∀ g : FilterGroup, g.EndDate = some f →
      alistLookup (convertFilterGroup g) "EndDate" = some (.obj (dateFilterDict f))) := by
  refine ⟨?_, ?_, ?_, ?_, ?_, ?_, ?_, ?_⟩
  · rcases hr : f.recent_days with _ | n
    · simp +decide [keyList, dateFilterDict, hr]
    · by_cases hn : n = 0 <;> simp +decide [keyList, dateFilterDict, hr, hn]
  · rfl
  · simp +decide [dateFilterDict, alistLookup]
  · simp +decide [dateFilterDict, alistLookup]
  · simp +decide [dateFilterDict, alistLookup]
  · simp +decide [dateFilterDict, alistLookup]
  · intro g hg
    simp +decide [convertFilterGroup, slotEntry, hg, alistLookup]
  · intro g hg
    cases hS : g.StartDate <;>
      simp +decide [convertFilterGroup, slotEntry, hg, hS, alistLookup]

/-- Witness for C10: a filter with `recent_days = 0` emits no `recent_days`
    key, canonicalizes exactly like the `None` form, and its populated
    `StartDate` slot carries the `dateFilterDict` payload. -/
theorem c10_recent_days_emission_witness :
    dateFilterDict dfRecentZero
      = dateFilterDict { dfRecentZero with recent_days := none }
  ∧ alistLookup (convertFilterGroup groupRecentZero) "StartDate"
      = some (.obj (dateFilterDict dfRecentZero)) := by
  have h := c10_recent_days_emission dfRecentZero
  exact ⟨by simpa using (c10_recent_days_emission
      { dfRecentZero with recent_days := some 0 }).2.1,
    h.2.2.2.2.2.2.1 groupRecentZero rfl⟩

/-- C7: fiscal-year boundary computation (lines 42-47 of
    `src/app/models/prompt_builder.py`). For a reference month of October or
    later the current federal FY runs Oct 1 of that year to Sep 30 of the next;
    otherwise Oct 1 of the previous year to Sep 30 of the reference year; in
    particular 2025-03-15 gives 2024-10-01 / 2025-09-30 and 2025-11-01 gives
    2025-10-01 / 2026-09-30. -/
theorem c7_fiscal_year_bounds :
    (∀ d : Date,
      (10 ≤ d.month →
        currentFYStart d = { year := d.year, month := 10, day := 1 } ∧
        currentFYEnd d = { year := d.year + 1, month := 9, day := 30 }) ∧
      (d.month < 10 →
        currentFYStart d = { year := d.year - 1, month := 10, day := 1 } ∧
        currentFYEnd d = { year := d.year, month := 9, day := 30 }))
  ∧ currentFYStart { year := 2025, month := 3, day := 15 }
      = { year := 2024, month := 10, day := 1 }
  ∧ currentFYEnd { year := 2025, month := 3, day := 15 }
      = { year := 2025, month := 9, day := 30 }
  ∧ currentFYStart { year := 2025, month := 11, day := 1 }
      = { year := 2025, month := 10, day := 1 }
  ∧ currentFYEnd { year := 2025, month := 11, day := 1 }
      = { year := 2026, month := 9, day := 30 } := by
  refine ⟨fun d => ⟨fun h => ?_, fun h => ?_⟩, by decide, by decide, by decide, by decide⟩
  · simp [currentFYStart, currentFYEnd, h]
  · have h2 : ¬ 10 ≤ d.month := by omega
    simp [currentFYStart, currentFYEnd, h2]

/-- Witness for C7 at the concrete reference date 2025-11-01. -/
theorem c7_fiscal_year_bounds_witness :
    10 ≤ ({ year := 2025, month := 11, day := 1 } : Date).month ∧
    currentFYStart { year := 2025, month := 11, day := 1 }
      = { year := 2025, month := 10, day := 1 } :=
  ⟨by decide, ((c7_fiscal_year_bounds.1 { year := 2025, month := 11, day := 1 }).1
      (by decide)).1⟩

/-- C8 (amended): composer determinism. `build_system_prompt` reads
    `date.today()` internally (modelled by `World`); given equal wall-clock
    dates and equal explicit inputs (`recent_days`, `query`), two invocations
    produce identical system- and user-prompt content. -/
theorem c8_composer_determinism (w1 w2 : World) (rd : Option ℕ) (q1 q2 : String)
    (hw : w1.today = w2.today) (hq : q1 = q2) :
    build_system_prompt w1 rd = build_system_prompt w2 rd ∧
    build_user_prompt q1 = build_user_prompt q2 := by
  cases w1
  cases w2
  cases hw
  cases hq
  exact ⟨rfl, rfl⟩

/-- Witness for C8 at concrete inputs. -/
theorem c8_composer_determinism_witness :
    build_system_prompt { today := { year := 2025, month := 3, day := 15 } } (some 90)
      = build_system_prompt { today := { year := 2025, month := 3, day := 15 } } (some 90)
  ∧ build_user_prompt "recent IT contracts" = build_user_prompt "recent IT contracts" :=
  c8_composer_determinism _ _ (some 90) _ _ rfl rfl

/-- Counterexample to C8 as stated: with every caller-supplied input fixed
    (`recent_days = 90`; the query does not enter the system prompt), the
    composer output still differs between two wall-clock dates — `today` is
    read inside `build_system_prompt`, not supplied as an explicit argument. -/
theorem c8_wall_clock_counterexample :
    build_system_prompt { today := { year := 2025, month := 3, day := 15 } } (some 90)
      ≠ build_system_prompt { today := { year := 2025, month := 11, day := 1 } } (some 90) := by
  intro h
  exact absurd (congrArg SystemPromptContent.today_str h) (by decide)

/-- C5 counterexample: a single-group payload carrying `"AND"` as the group
    combinator is accepted by validation, and canonicalization carries the
    `"AND"` through (not null). -/
theorem c5_pairing_counterexample :
    validateExtraction jSingleGroupAnd = .ok extSingleGroupAnd
  ∧ extSingleGroupAnd.filter_groups.length = 1
  ∧ extSingleGroupAnd.group_operator_between_groups = some "AND"
  ∧ (extractionToDict extSingleGroupAnd).group_operator_between_groups = some "AND" :=
  ⟨rfl, rfl, rfl, rfl⟩

/-- C5 (amended): validation does not enforce the group/combinator pairing —
    a single group with a non-null combinator and multiple groups with a null
    combinator are both accepted — and canonicalization passes
    `group_operator_between_groups` through unchanged, so a single-group output
    carries null exactly when the input did. -/
theorem c5_pairing_amended :
    (∀ e : ProcurementQueryExtraction,
      (extractionToDict e).group_operator_between_groups = e.group_operator_between_groups)
  ∧ validateExtraction jSingleGroupAnd = .ok extSingleGroupAnd
  ∧ extSingleGroupAnd.filter_groups.length = 1
  ∧ extSingleGroupAnd.group_operator_between_groups = some "AND"
  ∧ validateExtraction jTwoGroupsNull = .ok extTwoGroupsNull
  ∧ extTwoGroupsNull.filter_groups.length = 2
  ∧ extTwoGroupsNull.group_operator_between_groups = none :=
  ⟨fun _ => rfl, rfl, rfl, rfl, rfl, rfl, rfl⟩

/-- C6 counterexample: a date filter with `operator = BETWEEN`, a single value
    and neither bound is accepted by validation — the BETWEEN invariant is not
    checked, so such instances are not rejected. -/
theorem c6_between_counterexample :
    validateDateFilter jDateBetweenValueOnly = .ok dfBetweenValueOnly
  ∧ dfBetweenValueOnly.operator = "BETWEEN"
  ∧ dfBetweenValueOnly.start_date = none
  ∧ dfBetweenValueOnly.end_date = none
  ∧ dfBetweenValueOnly.value = some "2024-01-01" :=
  ⟨rfl, rfl, rfl, rfl, rfl⟩

/-- C6 (amended): `DateFilter`/`AmountFilter` validation enforces only the
    operator literal set, field types and closedness; the pairing
    `operator = BETWEEN ⇔ bounds present and value absent` is not enforced:
    BETWEEN with only a single value, and a non-BETWEEN operator with only
    bounds, are all accepted for both filter kinds. -/
theorem c6_between_amended :
    validateDateFilter jDateBetweenValueOnly = .ok dfBetweenValueOnly
  ∧ validateDateFilter jDateEqBounds = .ok dfEqBounds
  ∧ validateAmountFilter jAmountBetweenValueOnly = .ok afBetweenValueOnly
  ∧ validateAmountFilter jAmountEqBounds = .ok afEqBounds :=
  ⟨rfl, rfl, rfl, rfl⟩

/-- Substring occurrence is preserved by prepending text. -/
theorem hasSubL_append (pat u v : List Char) (h : hasSubL pat v = true) :
    hasSubL pat (u ++ v) = true := by
  induction u with
  | nil => simpa using h
  | cons a tl ih =>
    simp only [List.cons_append, hasSubL, Bool.or_eq_true]
    exact Or.inr ih

/-- Every extra-forbidden validation error message passes the retry test of
    line 118, whatever its location path. -/
theorem shouldRetry_extraForbidden (l : List String) :
    shouldRetry (errStr (.extraForbidden l)) = true := by
  have h : strContains (errStr (.extraForbidden l)) "extra_forbidden" = true := by
    unfold strContains errStr errLoc errTemplate
    simp only [String.data_append, List.append_assoc]
    exact hasSubL_append _ _ _ (hasSubL_append _ _ _ (by rfl))
  simp [shouldRetry, h]

/-- One unfolding of the attempt loop. -/
theorem extractGo_step (collab : ℕ → ℚ → AttemptOut) (t : ℚ) (fuel a : ℕ)
    (last : Option String) :
    extractGo collab t (fuel + 1) a last =
      match attemptOnce collab t a with
      | .ok x => .success (extractionToDict x) (a + 1)
      | .error e =>
        if shouldRetry (excStr e) then extractGo collab t fuel (a + 1) (some (excStr e))
        else finalizeExtract (some (excStr e)) (a + 1) := rfl

/-- C2 evaluated at the failing input: when every attempt returns a shape whose
    extra (undeclared) key is `api_version`, each attempt fails closed-record
    validation with an extra-forbidden error and is retried, the loop runs
    exactly 5 attempts — and then, because the error text
    `...filter_groups.0.api_version...` contains `api`, the substring
    classification of lines 128-133 raises `AzureOpenAIError` instead of the
    documented `ExtractionError("Failed to extract query", detail)`. -/
theorem c2_exhaustion_misroutes_at_api_key :
    validateExtraction jExtraApiVersion
      = .error (.extraForbidden ["filter_groups", "0", "api_version"])
  ∧ shouldRetry c2Msg = true
  ∧ strContains (strLower c2Msg) "api" = true
  ∧ extract c2Collab (3 / 10) = .azureOpenAIError c2Msg 5 :=
  ⟨rfl, rfl, rfl, rfl⟩

/-- C3 counterexample: a first-call transport error with the message
    `"Connection error."` (the literal text of `openai.APIConnectionError`)
    aborts after exactly 1 attempt, but — because the message contains neither
    `openai` nor `api` — `extract` raises the generic
    `ExtractionError("Failed to extract query", ...)`, not the provider-failure
    kind the claim requires. -/
theorem c3_provider_misroute_counterexample :
    extract c3Collab (3 / 10)
      = .extractionError "Failed to extract query" "Connection error." 1 := rfl

/-- C3 (amended): non-retry path. If the first inference call fails with an
    error whose message does not pass the retry substring test of line 118,
    `extract` makes no further attempts (exactly 1), and classifies the error
    by the substring test of line 128: `AzureOpenAIError` when the lowercased
    message contains `openai` or `api`, else
    `ExtractionError("Failed to extract query", message)`. -/
theorem c3_non_retry_path (collab : ℕ → ℚ → AttemptOut) (t : ℚ) (m : String)
    (h0 : collab 0 (retryTemperature t 0) = .providerErr m)
    (hr : shouldRetry m = false) :
    extract collab t = classifyLastError m 1 := by
  have e1 : extract collab t = extractGo collab t (4 + 1) 0 none := rfl
  rw [e1, extractGo_step]
  simp only [attemptOnce, h0, excStr, hr, Bool.false_eq_true, if_false]
  rfl

/-- Witness for C3 (amended) at the concrete transport error. -/
theorem c3_non_retry_path_witness :
    extract c3Collab (3 / 10) = classifyLastError "Connection error." 1 :=
  c3_non_retry_path c3Collab (3 / 10) "Connection error." rfl rfl

/-- C4: retry temperature schedule. The effective temperature is the base `t`
    on attempt 0 and `t + 0.05 * a` on attempt `a > 0` (line 72); when the
    first two attempts fail closed-record validation with extra-forbidden
    errors and the third validates, `extract` succeeds using exactly 3
    attempts, and the third attempt's temperature is `t + 0.10`. -/
theorem c4_retry_temperature_schedule (collab : ℕ → ℚ → AttemptOut) (t : ℚ)
    (j0 j1 j2 : Json) (l0 l1 : List String) (x : ProcurementQueryExtraction)
    (h0 : collab 0 (retryTemperature t 0) = .output j0)
    (hv0 : validateExtraction j0 = .error (.extraForbidden l0))
    (h1 : collab 1 (retryTemperature t 1) = .output j1)
    (hv1 : validateExtraction j1 = .error (.extraForbidden l1))
    (h2 : collab 2 (retryTemperature t 2) = .output j2)
    (hv2 : validateExtraction j2 = .ok x) :
    extract collab t = .success (extractionToDict x) 3
  ∧ retryTemperature t 0 = t
  ∧ (∀ a : ℕ, 0 < a → retryTemperature t a = t + (a : ℚ) * (5 / 100))
  ∧ retryTemperature t 2 = t + 10 / 100 := by
  refine ⟨?_, rfl, fun a ha => by simp [retryTemperature, ha], by
    norm_num [retryTemperature]⟩
  have e1 : extract collab t = extractGo collab t (4 + 1) 0 none := rfl
  rw [e1, extractGo_step]
  simp only [attemptOnce, h0, hv0, excStr, shouldRetry_extraForbidden, if_true]
  rw [show (4 : ℕ) = 3 + 1 from rfl, extractGo_step]
  simp only [attemptOnce, h1, hv1, excStr, shouldRetry_extraForbidden, if_true]
  rw [show (3 : ℕ) = 2 + 1 from rfl, extractGo_step]
  simp only [attemptOnce, h2, hv2]

/-- Witness for C4: two mis-nested shapes then a valid one gives success on
    attempt 3, and the schedule at base `0.3` puts attempt 2 at `0.4`. -/
theorem c4_retry_temperature_schedule_witness :
    extract c4Collab (3 / 10) = .success (extractionToDict extValidMinimal) 3
  ∧ retryTemperature (3 / 10) 2 = 3 / 10 + 10 / 100 := by
  have h := c4_retry_temperature_schedule c4Collab (3 / 10)
    jExtraMisnested jExtraMisnested jValidMinimal
    ["filter_groups", "0", "zz_extra"] ["filter_groups", "0", "zz_extra"]
    extValidMinimal rfl rfl rfl rfl rfl rfl
  exact ⟨h.1, h.2.2.2⟩
